import Mathlib

/-! Verification development for the TechNewsHub aggregation core.

Shallow embedding of the repository's aggregation cascade, canonicalizer,
content-cache writer, patent pipeline, refresh notifier and deep-dive
expansion, translated from the TypeScript sources:
  - the news aggregation handler (parseRequest, callPerplexity/callGemini/
    callChatGpt cascade, buildPlaceholderItems, aggregateContent,
    handleApiGateway),
  - infrastructure/lambda/fetchPatents.ts (normalizeRequest,
    generatePatentSummaries, upsertCache, handleApi),
  - infrastructure/lambda/dailyRefresh.ts (both handler variants),
  - the deep-dive related-content handler (expandRelated, handler).

I/O boundaries (DynamoDB, Secrets Manager, HTTP providers, timestamps,
uuid generation) are made explicit parameters: provider calls become
outcome values, the cache becomes a key-indexed map passed through, and
clock/uuid values are passed in.  JavaScript numbers in score arithmetic
are modelled as rationals, with Math.round made explicit.
-/

namespace TechNewsHub

/-- JavaScript Math.round: round half toward positive infinity,
i.e. Math.round(x) = floor(x + 0.5). -/
def jsRound (q : ℚ) : ℤ := ⌊q + 1/2⌋

/-- JavaScript Number.prototype.toFixed(0): rounds half away from zero
and prints the integer. -/
def toFixed0 (q : ℚ) : String :=
  if q < 0 then "-" ++ toString ⌊(-q) + 1/2⌋ else toString ⌊q + 1/2⌋

/-- Placeholder for `uuid()` / `randomUUID()`: id generation is modelled
deterministically since no claim inspects generated id values. -/
def uuidPlaceholder : String := "generated-id"

/-! News aggregation: the fetch-news handler. -/

/-- Request shape `AggregationRequest` from the news handler.  The TypeScript field
`section` is spelled `sectionName` because `section` is a Lean keyword. -/
structure AggregationRequest where
  sectionName : String
  timePeriod : String
  mode : Option String
deriving DecidableEq

/-- One raw provider item as consumed by the canonicalizing map in
`aggregateContent` (fields the code reads, all optional in JS).
`source_url` stands for `item.source?.url`. -/
structure RawNewsItem where
  id : Option String
  title : Option String
  summary : Option String
  content : Option String
  source_url : Option String
  url : Option String
  published_at : Option String
  publishedAt : Option String
deriving DecidableEq

/-- Canonical `AiContentItem` of the news handler. -/
structure AiContentItem where
  id : String
  title : String
  summary : String
  sourceUrl : Option String
  verificationScore : ℤ
  publishedAt : String
deriving DecidableEq

/-- Outcome of one provider call as observed by `aggregateContent`:
`missingKey` is the `null` returned when the credential is absent,
`thrown` is a network/protocol failure (the surrounding try/catch in
`aggregateContent` swallows it), and `ok` is a successful
`{provider, confidence, items}` response (items may be empty). -/
inductive CallOutcome where
  | missingKey
  | thrown
  | ok (confidence : ℚ) (items : List RawNewsItem)
deriving DecidableEq

/-- The `{provider, confidence, items}` triple held in `aiResult`. -/
structure ChosenResult where
  provider : String
  confidence : ℚ
  items : List RawNewsItem
deriving DecidableEq

/-- What one try/catch block of `aggregateContent` contributes to
`aiResult`: `some` exactly when the call returned a non-null result
(missing key gives `null`, a thrown error is caught leaving `null`). -/
def tryCall (name : String) (o : CallOutcome) : Option ChosenResult :=
  match o with
  | .ok confidence items => some ⟨name, confidence, items⟩
  | _ => none

/-- Lines 292-314 of the news handler: Perplexity, then (if `aiResult`
is still null) Gemini, then ChatGPT.  Note the guard is `if (!aiResult)`:
a non-null result stops the cascade even when its item list is empty. -/
def cascade (p g c : CallOutcome) : Option ChosenResult :=
  match tryCall "perplexity" p with
  | some r => some r
  | none =>
    match tryCall "gemini" g with
    | some r => some r
    | none => tryCall "chatgpt" c

/-- Modelled from the spec (for comparison only, not from the source):
the first provider in order whose result is non-Unavailable with
`items.length > 0`, as the cascade-selection sentence describes it. -/
def firstNonEmptySuccess : List (String × CallOutcome) → Option String
  | [] => none
  | (name, o) :: rest =>
    match o with
    | .ok _ items => if items.length > 0 then some name else firstNonEmptySuccess rest
    | _ => firstNonEmptySuccess rest

/-- The first provider in order whose result is non-null (non-Unavailable),
regardless of how many items it carries; this is what the code's
`if (!aiResult)` chain computes. -/
def firstNonUnavailable : List (String × CallOutcome) → Option ChosenResult
  | [] => none
  | (name, o) :: rest =>
    match o with
    | .ok confidence items => some ⟨name, confidence, items⟩
    | _ => firstNonUnavailable rest

/-- Function `buildPlaceholderItems` of the news handler: three fixed placeholder items
with verificationScore 50; `new Date().toISOString()` is the `now`
parameter, `uuid()` the deterministic placeholder id. -/
def buildPlaceholderItems (sectionName timePeriod now : String) : List AiContentItem :=
  (List.range 3).map (fun index =>
    { id := uuidPlaceholder
      title := sectionName.toUpper ++ " insight " ++ toString (index + 1) ++ " (" ++ timePeriod ++ ")"
      summary := "Placeholder content for " ++ sectionName ++ " during " ++ timePeriod ++
        ". Replace with real aggregation when API keys are configured."
      sourceUrl := none
      verificationScore := 50
      publishedAt := now })

/-- The canonicalizing map body of `aggregateContent` (lines 317-327).
Inside the map `aiResult` is the non-null chosen result, so the
`aiResult?.confidence ?? 0.6` default can never fire there; `confidence`
is the chosen provider's confidence. -/
def canonicalItem (req : AggregationRequest) (generatedAt : String) (confidence : ℚ)
    (raw : RawNewsItem) : AiContentItem :=
  { id := raw.id.getD uuidPlaceholder
    title := raw.title.getD (raw.summary.getD ("Update for " ++ req.sectionName))
    summary := raw.summary.getD (raw.content.getD
      ("Automated insight regarding " ++ req.sectionName ++ " developments for " ++
        req.timePeriod ++ "."))
    sourceUrl := raw.source_url.orElse (fun _ => raw.url)
    verificationScore := jsRound (confidence * 100)
    publishedAt := raw.published_at.getD (raw.publishedAt.getD generatedAt) }

/-! Content cache: the DynamoDB table keyed by `sectionPeriod`. -/

/-- Patent summary record from fetchPatents.ts. -/
structure PatentSummary where
  id : String
  title : String
  abstract : String
  filingDate : Option String
  inventors : Option (List String)
  impactScore : ℤ
  sourceUrl : Option String
deriving DecidableEq

/-- One cache record: the attributes the two UpdateCommand writes touch.
The news write sets `newsArray`/`verifiedAt`/`expiresAt`/`verificationScore`;
the patent write sets `patentsArray`/`verifiedAt`/`expiresAt`/
`patentImpactAverage`.  Attributes never written stay `none`. -/
structure CacheRecord where
  newsArray : Option (List AiContentItem)
  patentsArray : Option (List PatentSummary)
  verifiedAt : Option String
  expiresAt : Option ℤ
  verificationScore : Option ℤ
  patentImpactAverage : Option ℤ
deriving DecidableEq

def emptyRecord : CacheRecord := ⟨none, none, none, none, none, none⟩

/-- The content-cache table: key `sectionPeriod` to record.  DynamoDB
UpdateCommand semantics: update the existing item, creating it when
absent; a SET replaces exactly the named attributes. -/
def Cache : Type := String → Option CacheRecord

def emptyCache : Cache := fun _ => none

/-- The UpdateCommand issued by `aggregateContent` (news handler lines
331-345): SET newsArray, verifiedAt, expiresAt, verificationScore on the
`sectionPeriod` key; the other attributes are untouched. -/
def newsUpsert (cache : Cache) (key : String) (items : List AiContentItem)
    (verifiedAt : String) (ttl : ℤ) (score : ℤ) : Cache :=
  fun k =>
    if k = key then
      let r := (cache key).getD emptyRecord
      some { r with
              newsArray := some items
              verifiedAt := some verifiedAt
              expiresAt := some ttl
              verificationScore := some score }
    else cache k

/-- Key construction for `sectionPeriod`, shared by every handler. -/
def cacheKey (sectionName timePeriod : String) : String :=
  sectionName ++ "#" ++ timePeriod

/-! Aggregation pipeline `aggregateContent` and the news entry points. -/

structure AggregatedResponse where
  sectionName : String
  timePeriod : String
  items : List AiContentItem
  verificationSummary : String
  generatedAt : String
deriving DecidableEq

/-- Function `aggregateContent` (news handler lines 288-357) given the outcomes of
the three provider calls, the current cache, the generation timestamp and
the epoch-seconds clock: runs the cascade, canonicalizes (slice(0, 10)
then map), substitutes `buildPlaceholderItems` when the canonical list is
empty, writes the cache record, and returns the response. -/
def aggregateContent (req : AggregationRequest) (p g c : CallOutcome)
    (cache : Cache) (generatedAt : String) (nowEpoch : ℤ) :
    AggregatedResponse × Cache :=
  let aiResult := cascade p g c
  let items : List AiContentItem :=
    match aiResult with
    | some r => (r.items.take 10).map (canonicalItem req generatedAt r.confidence)
    | none => []
  let enrichedItems :=
    if items.length > 0 then items
    else buildPlaceholderItems req.sectionName req.timePeriod generatedAt
  let writtenScore : ℤ :=
    jsRound ((match aiResult with | some r => r.confidence | none => (1 : ℚ)/2) * 100)
  let cache2 := newsUpsert cache (cacheKey req.sectionName req.timePeriod)
    enrichedItems generatedAt (nowEpoch + 60 * 60 * 24) writtenScore
  let verificationSummary :=
    match aiResult with
    | some r =>
        "Content verified via " ++ r.provider ++ " with confidence " ++
          toFixed0 (r.confidence * 100) ++ "%."
    | none => "Placeholder content generated because AI providers were unavailable."
  (⟨req.sectionName, req.timePeriod, enrichedItems, verificationSummary, generatedAt⟩, cache2)

/-- Query-string parameters the two parse functions read. -/
structure QueryParams where
  sectionName : Option String
  timePeriod : Option String
deriving DecidableEq

/-- The body fields the parse functions read from a parsed JSON body. -/
structure BodyFields where
  sectionName : Option String
  timePeriod : Option String
deriving DecidableEq

instance {ε α : Type} [DecidableEq ε] [DecidableEq α] : DecidableEq (Except ε α) :=
  fun a b =>
    match a, b with
    | .error e, .error f => decidable_of_iff (e = f) (by simp)
    | .ok x, .ok y => decidable_of_iff (x = y) (by simp)
    | .error _, .ok _ => isFalse (by simp)
    | .ok _, .error _ => isFalse (by simp)

/-- An API Gateway event as the handlers see it: `body` is absent (`none`),
present but unparseable (`some (Except.error ())`, where `JSON.parse`
throws), or parsed (`some (Except.ok fields)`).  `queryStringParameters`
may itself be absent. -/
structure ApiEvent where
  body : Option (Except Unit BodyFields)
  queryStringParameters : Option QueryParams
deriving DecidableEq

/-- Function `parseRequest` (news handler lines 186-193), API-gateway branch.
`JSON.parse(event.body)` is not guarded there, so an unparseable body
makes `parseRequest` itself throw (`Except.error`). -/
def parseRequestApi (e : ApiEvent) : Except Unit AggregationRequest :=
  match e.body with
  | some (Except.error _) => Except.error ()
  | bodyOpt =>
    let b : BodyFields :=
      match bodyOpt with
      | some (Except.ok fields) => fields
      | _ => ⟨none, none⟩
    Except.ok
      { sectionName := b.sectionName.getD
          ((e.queryStringParameters.bind QueryParams.sectionName).getD "ai")
        timePeriod := b.timePeriod.getD
          ((e.queryStringParameters.bind QueryParams.timePeriod).getD "daily")
        mode := some "api" }

/-- An internal (orchestrator) invocation event for the news handler. -/
structure InternalEvent where
  sectionName : Option String
  timePeriod : Option String
  mode : Option String
deriving DecidableEq

/-- Function `parseRequest` (news handler lines 194-198), internal-event branch. -/
def parseRequestInternal (e : InternalEvent) : AggregationRequest :=
  { sectionName := e.sectionName.getD "ai"
    timePeriod := e.timePeriod.getD "daily"
    mode := e.mode }

/-- Function `handleApiGateway` (news handler lines 359-376): the try block wraps
both `parseRequest` and `aggregateContent`; a throw from either yields
the generic 500 response. -/
def handleApiGateway (e : ApiEvent) (p g c : CallOutcome) (cache : Cache)
    (generatedAt : String) (nowEpoch : ℤ) :
    (ℕ × Except String AggregatedResponse) × Cache :=
  match parseRequestApi e with
  | Except.error _ => ((500, Except.error "Failed to aggregate news content"), cache)
  | Except.ok req =>
    let (resp, cache2) := aggregateContent req p g c cache generatedAt nowEpoch
    ((200, Except.ok resp), cache2)

/-! Patent pipeline: infrastructure/lambda/fetchPatents.ts. -/

structure PatentRequest where
  sectionName : String
  timePeriod : String
  mode : Option String
deriving DecidableEq

/-- One raw patent result as read by the Perplexity branch of
`generatePatentSummaries`; `source_url` stands for `patent.source?.url`. -/
structure RawPatent where
  id : Option String
  title : Option String
  summary : Option String
  abstract : Option String
  published_at : Option String
  filingDate : Option String
  inventors : Option (List String)
  confidence : Option ℚ
  source_url : Option String
  url : Option String
deriving DecidableEq

/-- Function `normalizeRequest` (fetchPatents.ts lines 61-75), API-gateway branch.
As in the news handler, `JSON.parse(event.body)` is unguarded. -/
def normalizeRequestApi (e : ApiEvent) : Except Unit PatentRequest :=
  match e.body with
  | some (Except.error _) => Except.error ()
  | bodyOpt =>
    let b : BodyFields :=
      match bodyOpt with
      | some (Except.ok fields) => fields
      | _ => ⟨none, none⟩
    Except.ok
      { sectionName := b.sectionName.getD
          ((e.queryStringParameters.bind QueryParams.sectionName).getD "ai")
        timePeriod := b.timePeriod.getD
          ((e.queryStringParameters.bind QueryParams.timePeriod).getD "monthly")
        mode := some "api" }

/-- Function `normalizeRequest` (fetchPatents.ts lines 70-74), internal branch. -/
def normalizeRequestInternal (e : InternalEvent) : PatentRequest :=
  { sectionName := e.sectionName.getD "ai"
    timePeriod := e.timePeriod.getD "monthly"
    mode := e.mode }

/-- Outcome of the Perplexity patent lookup (fetchPatents.ts lines 82-106):
`notConfigured` when `secrets.perplexityApiKey` is absent (the call is
skipped), `thrown` when the axios call throws (caught there, only a
console.warn), `ok` a successful response with its `results` list. -/
inductive PerplexityPatentOutcome where
  | notConfigured
  | thrown
  | ok (results : List RawPatent)
deriving DecidableEq

/-- Outcome of the ChatGPT patent fallback (fetchPatents.ts lines 108-132):
`notConfigured` when `secrets.chatGptApiKey` is absent, `thrown` when the
axios call throws — that call has no surrounding try/catch, so the throw
escapes `generatePatentSummaries` — and `ok text` a successful response
whose first choice message content is `text` (the `?? ''` default folded
in: an absent content is `ok ""`). -/
inductive ChatGptPatentOutcome where
  | notConfigured
  | thrown
  | ok (text : String)
deriving DecidableEq

/-- The Perplexity item-push body (fetchPatents.ts lines 90-101). -/
def patentFromPerplexity (req : PatentRequest) (p : RawPatent) : PatentSummary :=
  { id := p.id.getD uuidPlaceholder
    title := p.title.getD ("Patent insight for " ++ req.sectionName)
    abstract := p.summary.getD (p.abstract.getD
      ("Placeholder summary for a " ++ req.sectionName ++ " patent during " ++
        req.timePeriod ++ "."))
    filingDate := p.published_at.orElse (fun _ => p.filingDate)
    inventors := some (p.inventors.getD [])
    impactScore := jsRound ((p.confidence.getD (3/5)) * 100)
    sourceUrl := p.source_url.orElse (fun _ => p.url) }

/-- The ChatGPT fallback item construction (fetchPatents.ts lines 120-131):
split the text on newlines, drop empty lines (`filter(Boolean)`), keep the
first 5, and build one summary per line; `line.split(':')[0]` always
yields the part before the first colon (never absent in JS, so the
`?? Patent n` default cannot fire; `headD` mirrors the `??`). -/
def patentsFromChatGptText (text : String) : List PatentSummary :=
  let lines := ((text.splitOn "\n").filter (fun l => l ≠ "")).take 5
  lines.enum.map (fun pair =>
    { id := uuidPlaceholder
      title := (pair.2.splitOn ":").headD ("Patent " ++ toString (pair.1 + 1))
      abstract := pair.2
      filingDate := none
      inventors := none
      impactScore := 60
      sourceUrl := none })

/-- The exhaustion placeholder patents (fetchPatents.ts lines 134-141). -/
def placeholderPatents (req : PatentRequest) : List PatentSummary :=
  (List.range 3).map (fun index =>
    { id := uuidPlaceholder
      title := req.sectionName.toUpper ++ " patent highlight " ++ toString (index + 1)
      abstract := "Placeholder patent highlight for " ++ req.sectionName ++ " (" ++
        req.timePeriod ++ "). Configure API keys to replace this data."
      filingDate := none
      inventors := none
      impactScore := 55
      sourceUrl := none })

/-- Function `generatePatentSummaries` (fetchPatents.ts lines 77-144).  The
Perplexity branch is guarded by try/catch (a throw leaves `items` empty);
the ChatGPT branch runs only when `items` is empty and the key is
configured, and is NOT guarded, so its throw propagates out as
`Except.error`.  If the list is still empty, three labelled placeholders
with impactScore 55 are substituted; otherwise `slice(0, 10)`. -/
def generatePatentSummaries (req : PatentRequest)
    (px : PerplexityPatentOutcome) (cg : ChatGptPatentOutcome) :
    Except Unit (List PatentSummary) :=
  let items : List PatentSummary :=
    match px with
    | .ok results => results.map (patentFromPerplexity req)
    | _ => []
  match items, cg with
  | [], .thrown => Except.error ()
  | [], .ok text =>
    let pushed := patentsFromChatGptText text
    if pushed.isEmpty then Except.ok (placeholderPatents req)
    else Except.ok (pushed.take 10)
  | [], .notConfigured => Except.ok (placeholderPatents req)
  | nonEmpty, _ => Except.ok (nonEmpty.take 10)

/-- Function `upsertCache` (fetchPatents.ts lines 146-165): SET patentsArray,
verifiedAt, expiresAt and patentImpactAverage on the `sectionPeriod` key;
`patentImpactAverage` is `Math.round` of the sum of impact scores divided
by `Math.max(1, patents.length)`. -/
def upsertCache (cache : Cache) (req : PatentRequest) (patents : List PatentSummary)
    (verifiedAt : String) (nowEpoch : ℤ) : Cache :=
  fun k =>
    if k = cacheKey req.sectionName req.timePeriod then
      let r := (cache (cacheKey req.sectionName req.timePeriod)).getD emptyRecord
      some { r with
              patentsArray := some patents
              verifiedAt := some verifiedAt
              expiresAt := some (nowEpoch + 60 * 60 * 24)
              patentImpactAverage := some (jsRound
                (((patents.map PatentSummary.impactScore).sum : ℚ) /
                  (max 1 patents.length : ℕ))) }
    else cache k

structure PatentResponse where
  sectionName : String
  timePeriod : String
  patents : List PatentSummary
  generatedAt : String
deriving DecidableEq

/-- Function `handleApi` (fetchPatents.ts lines 167-191): the try block wraps
normalizeRequest, generatePatentSummaries and upsertCache; any throw
yields the generic 500 response. -/
def handleApiPatents (e : ApiEvent) (px : PerplexityPatentOutcome)
    (cg : ChatGptPatentOutcome) (cache : Cache) (generatedAt : String)
    (nowEpoch : ℤ) : (ℕ × Except String PatentResponse) × Cache :=
  match normalizeRequestApi e with
  | Except.error _ => ((500, Except.error "Unable to aggregate patent insights"), cache)
  | Except.ok req =>
    match generatePatentSummaries req px cg with
    | Except.error _ => ((500, Except.error "Unable to aggregate patent insights"), cache)
    | Except.ok patents =>
      let cache2 := upsertCache cache req patents generatedAt nowEpoch
      ((200, Except.ok ⟨req.sectionName, req.timePeriod, patents, generatedAt⟩), cache2)

/-! Refresh trigger: infrastructure/lambda/dailyRefresh.ts.

The file holds two variants of the same handler.  The first (lines 18-60)
pushes only when `Array.isArray(detail.connections)`; the second (lines
96-139) falls back to scanning the websocket-sessions table. -/

structure RefreshDetail where
  sections : Option (List String)
  timePeriods : Option (List String)
  connections : Option (List String)
deriving DecidableEq

/-- What a refresh-handler run does: the sweep input it starts and the
connection ids it posts the refresh notification to. -/
structure RefreshOutcome where
  sweepSections : List String
  sweepPeriods : List String
  pushedTo : List String
  statusCode : ℕ
deriving DecidableEq

/-- First dailyRefresh handler variant (lines 18-60): when
`detail.connections` is not an array (omitted), the notification block is
skipped entirely. -/
def dailyRefreshHandlerV1 (detail : Option RefreshDetail)
    (stateMachineConfigured websocketConfigured : Bool) : RefreshOutcome :=
  let d := detail.getD ⟨none, none, none⟩
  let sections := d.sections.getD ["ml", "ai", "iot", "quantum"]
  let timePeriods := d.timePeriods.getD ["daily", "weekly", "monthly", "yearly"]
  if stateMachineConfigured = false then ⟨[], [], [], 500⟩
  else
    let pushed :=
      match d.connections with
      | some cs => if websocketConfigured then cs else []
      | none => []
    ⟨sections, timePeriods, pushed, 202⟩

/-- Function `listActiveConnections` (second variant, lines 83-94): scan the
websocket-sessions table, project `connectionId`, `filter(Boolean)`
dropping blank ids; an unconfigured table yields the empty list. -/
def listActiveConnections (registry : List String) (tableConfigured : Bool) :
    List String :=
  if tableConfigured then registry.filter (fun c => c ≠ "") else []

/-- Second dailyRefresh handler variant (lines 96-142): when
`detail.connections` is not an array, enumerate the registered live
connections instead; push when the websocket client is configured and the
list is non-empty. -/
def dailyRefreshHandlerV2 (detail : Option RefreshDetail)
    (stateMachineConfigured websocketConfigured tableConfigured : Bool)
    (registry : List String) : RefreshOutcome :=
  let d := detail.getD ⟨none, none, none⟩
  let sections := d.sections.getD ["ml", "ai", "iot", "quantum"]
  let timePeriods := d.timePeriods.getD ["daily", "weekly", "monthly", "yearly"]
  if stateMachineConfigured = false then ⟨[], [], [], 500⟩
  else
    let connections :=
      match d.connections with
      | some cs => cs
      | none => listActiveConnections registry tableConfigured
    let pushed :=
      if websocketConfigured ∧ connections.length > 0 then connections else []
    ⟨sections, timePeriods, pushed, 202⟩

/-! Deep-dive expansion: the related-content handler. -/

/-- The scalar fields `expandRelated` reads off one cached item;
`verificationScore` is `some q` exactly when the stored value is a finite
number (the `Number.isFinite` test). -/
structure RawItemFields where
  id : Option String
  title : Option String
  summary : Option String
  content : Option String
  sourceUrl : Option String
  source_url : Option String
  url : Option String
  verificationScore : Option ℚ

/-- A stored item tree: `related` is `some children` exactly when
`Array.isArray(item.related)` holds. -/
inductive RawItem where
  | mk (fields : RawItemFields) (related : Option (List RawItem))

/-- The expanded `RelatedItem` shape returned by the handler; `related`
is `none` when the remaining depth budget ran out. -/
inductive RelatedItem where
  | mk (id title summary : String) (sourceUrl : Option String)
      (verificationScore : ℤ) (related : Option (List RelatedItem))

mutual

/-- Function `expandRelated` (related-content handler lines 219-236): recursively
expand `item.related.slice(0, 3)` with depth - 1, attach the children
only while `depth > 1`. -/
def expandRelated (item : RawItem) (depth : ℤ) : RelatedItem :=
  match item with
  | .mk f related =>
    let relatedItems : List RelatedItem :=
      match related with
      | some children => expandChildren 3 children (depth - 1)
      | none => []
    .mk (f.id.getD uuidPlaceholder)
      (f.title.getD "Related technology development")
      (f.summary.getD (f.content.getD
        "AI generated related insight awaiting full orchestration."))
      ((f.sourceUrl.orElse (fun _ => f.source_url)).orElse (fun _ => f.url))
      (match f.verificationScore with
       | some q => jsRound q
       | none => 60)
      (if depth > 1 then some relatedItems else none)

/-- Helper for `item.related.slice(0, 3).map(child => expandRelated(child, depth - 1))`:
expand at most `n` children of the list. -/
def expandChildren (n : ℕ) (children : List RawItem) (depth : ℤ) : List RelatedItem :=
  match n, children with
  | 0, _ => []
  | _ + 1, [] => []
  | m + 1, child :: rest => expandRelated child depth :: expandChildren m rest depth

end

/-- The depth actually passed to `expandRelated` by the handler (line 251):
`Math.min(request.depth ?? 3, 5)` — an upper clamp only. -/
def deepDiveDepth (requestedDepth : Option ℤ) : ℤ :=
  min (requestedDepth.getD 3) 5

/-- The expanded item the handler builds for a resolved target and the
caller-requested depth. -/
def deepDiveItem (target : RawItem) (requestedDepth : Option ℤ) : RelatedItem :=
  expandRelated target (deepDiveDepth requestedDepth)

mutual

/-- Every `related` list of the tree has at most 3 entries. -/
def bounded3 : RelatedItem → Bool
  | .mk _ _ _ _ _ none => true
  | .mk _ _ _ _ _ (some l) => decide (l.length ≤ 3) && bounded3List l

def bounded3List : List RelatedItem → Bool
  | [] => true
  | x :: xs => bounded3 x && bounded3List xs

end

/-! Remaining shared definitions used by the statements below. -/

/-- A sample raw provider item used as concrete input. -/
def sampleRaw : RawNewsItem :=
  ⟨some "n1", some "Sample title", none, none, none, none, none, none⟩

/-- A provider outcome is "Unavailable or empty items": the credential was
missing, the call threw, or it succeeded with an empty item list. -/
def isUnavailableOrEmpty (o : CallOutcome) : Bool :=
  match o with
  | .ok _ items => items.isEmpty
  | _ => true

/-! Helper lemmas about the deep-dive expansion. -/

theorem expandRelated_depth_le_one (t : RawItem) (d e : ℤ) (hd : d ≤ 1) (he : e ≤ 1) :
    expandRelated t d = expandRelated t e := by
  obtain ⟨f, related⟩ := t
  rw [expandRelated.eq_def, expandRelated.eq_def]
  have h1 : ¬ d > 1 := by omega
  have h2 : ¬ e > 1 := by omega
  simp [h1, h2]

theorem expandChildren_length (n : ℕ) (cs : List RawItem) (d : ℤ) :
    (expandChildren n cs d).length ≤ n := by
  induction cs generalizing n with
  | nil => cases n <;> simp [expandChildren.eq_def]
  | cons c rest ih =>
    cases n with
    | zero => simp [expandChildren.eq_def]
    | succ m =>
      rw [expandChildren.eq_def]
      simpa using ih m

theorem mem_expandChildren {x : RelatedItem} :
    ∀ (n : ℕ) (cs : List RawItem) (d : ℤ), x ∈ expandChildren n cs d →
      ∃ c ∈ cs, x = expandRelated c d := by
  intro n cs
  induction cs generalizing n with
  | nil => intro d h; cases n <;> simp [expandChildren.eq_def] at h
  | cons c rest ih =>
    intro d h
    cases n with
    | zero => simp [expandChildren.eq_def] at h
    | succ m =>
      rw [expandChildren.eq_def] at h
      simp at h
      rcases h with h | h
      · exact ⟨c, by simp, h⟩
      · obtain ⟨c2, hc2, hx⟩ := ih m d h
        exact ⟨c2, by simp [hc2], hx⟩

theorem bounded3List_eq (l : List RelatedItem) :
    bounded3List l = l.all bounded3 := by
  induction l with
  | nil => rfl
  | cons x xs ih => rw [bounded3List.eq_def]; simp [ih]

/-! Claim theorems. -/

/-- C1 counterexample: the claim says an empty-items success causes the
cascade to try the next provider, so with Perplexity succeeding with zero
items and Gemini succeeding with one item the chosen provider would have
to be the first with non-empty items (Gemini); the code instead stops at
Perplexity, whose item list is empty. -/
theorem c1_empty_success_not_skipped_cx :
    cascade (.ok (9/10) []) (.ok (19/20) [sampleRaw]) .missingKey =
      some ⟨"perplexity", 9/10, []⟩ ∧
    firstNonEmptySuccess
      [("perplexity", .ok (9/10) []), ("gemini", .ok (19/20) [sampleRaw]),
        ("chatgpt", .missingKey)] = some "gemini" ∧
    ("perplexity" : String) ≠ "gemini" :=
  ⟨rfl, rfl, by decide⟩

/-- C1 (amended): the cascade selects exactly the first provider that
returns any non-Unavailable result — regardless of its item count and of
the confidences of later providers; only Unavailable (missing credential
or thrown call, both leaving `aiResult` null) causes the cascade to try
the next provider; an empty-items success stops the cascade. -/
theorem c1_cascade_selects_first_non_unavailable :
    ∀ p g c : CallOutcome,
      cascade p g c =
        firstNonUnavailable [("perplexity", p), ("gemini", g), ("chatgpt", c)] := by
  intro p g c
  cases p <;> cases g <;> cases c <;> rfl

/-- C2 counterexample: with every provider Unavailable-or-empty (Perplexity
succeeds with zero items, the rest have no key), the response does carry
exactly 3 placeholder items, but its `verificationSummary` reports
verification via Perplexity rather than stating that providers were
unavailable — refuting the claimed summary text for this case. -/
theorem c2_summary_names_provider_cx :
    isUnavailableOrEmpty (.ok (9/10) []) = true ∧
    (aggregateContent ⟨"ai", "daily", none⟩ (.ok (9/10) []) .missingKey .missingKey
        emptyCache "2026-01-01T00:00:00.000Z" 0).1.items.length = 3 ∧
    (aggregateContent ⟨"ai", "daily", none⟩ (.ok (9/10) []) .missingKey .missingKey
        emptyCache "2026-01-01T00:00:00.000Z" 0).1.verificationSummary =
      "Content verified via perplexity with confidence 90%." ∧
    "Content verified via perplexity with confidence 90%." ≠
      "Placeholder content generated because AI providers were unavailable." := by
  refine ⟨rfl, rfl, ?_, by decide⟩
  show "Content verified via " ++ "perplexity" ++ " with confidence " ++
      toFixed0 ((9:ℚ)/10 * 100) ++ "%." = _
  have h : toFixed0 ((9:ℚ)/10 * 100) = "90" := by
    unfold toFixed0
    norm_num
    decide
  rw [h]
  decide

/-- C2 (amended): if every provider returns Unavailable or empty items,
the request still succeeds (200) and the response holds exactly the 3
labelled placeholder items, each with score 50 (hence within [50, 60]);
`verificationSummary` states that providers were unavailable exactly when
no provider returned a non-Unavailable result — when some provider
returned an empty-items success, the summary names that provider
instead. -/
theorem c2_exhaustion_placeholder :
    ∀ (req : AggregationRequest) (p g c : CallOutcome) (cache : Cache)
      (now : String) (epoch : ℤ),
      isUnavailableOrEmpty p = true → isUnavailableOrEmpty g = true →
      isUnavailableOrEmpty c = true →
      (aggregateContent req p g c cache now epoch).1.items =
        buildPlaceholderItems req.sectionName req.timePeriod now ∧
      (aggregateContent req p g c cache now epoch).1.items.length = 3 ∧
      (∀ it ∈ (aggregateContent req p g c cache now epoch).1.items,
        it.verificationScore = 50 ∧ 50 ≤ it.verificationScore ∧
          it.verificationScore ≤ 60) ∧
      (handleApiGateway ⟨none, none⟩ p g c cache now epoch).1.1 = 200 ∧
      (cascade p g c = none →
        (aggregateContent req p g c cache now epoch).1.verificationSummary =
          "Placeholder content generated because AI providers were unavailable.") ∧
      (∀ r : ChosenResult, cascade p g c = some r →
        (aggregateContent req p g c cache now epoch).1.verificationSummary =
          "Content verified via " ++ r.provider ++ " with confidence " ++
            toFixed0 (r.confidence * 100) ++ "%.") := by
  intro req p g c cache now epoch hp hg hc
  have hitems : ∀ r : ChosenResult, cascade p g c = some r → r.items = [] := by
    intro r hr
    cases p <;> cases g <;> cases c <;>
      simp_all [cascade, tryCall, isUnavailableOrEmpty, List.isEmpty_iff] <;>
      (subst hr; rfl)
  have hplaceholder :
      (aggregateContent req p g c cache now epoch).1.items =
        buildPlaceholderItems req.sectionName req.timePeriod now := by
    unfold aggregateContent
    cases hcas : cascade p g c with
    | none => simp
    | some r =>
      have := hitems r hcas
      simp [this]
  refine ⟨hplaceholder, ?_, ?_, ?_, ?_, ?_⟩
  · rw [hplaceholder]; simp [buildPlaceholderItems]
  · intro it hit
    rw [hplaceholder] at hit
    simp [buildPlaceholderItems] at hit
    obtain ⟨i, hi, hiteq⟩ := hit
    subst hiteq
    refine ⟨rfl, by norm_num, by norm_num⟩
  · unfold handleApiGateway parseRequestApi
    simp
  · intro hnone; unfold aggregateContent; simp [hnone]
  · intro r hr; unfold aggregateContent; simp [hr]

/-- C2 witness: the amended theorem applied at the all-Unavailable Scenario
A input — no providers configured, request `ai`/`daily`. -/
theorem c2_exhaustion_placeholder_witness :
    isUnavailableOrEmpty .missingKey = true ∧
    ((aggregateContent ⟨"ai", "daily", some "api"⟩ .missingKey .missingKey .missingKey
        emptyCache "t" 0).1.items =
      buildPlaceholderItems "ai" "daily" "t" ∧
    (aggregateContent ⟨"ai", "daily", some "api"⟩ .missingKey .missingKey .missingKey
        emptyCache "t" 0).1.items.length = 3 ∧
    (∀ it ∈ (aggregateContent ⟨"ai", "daily", some "api"⟩ .missingKey .missingKey
        .missingKey emptyCache "t" 0).1.items,
      it.verificationScore = 50 ∧ 50 ≤ it.verificationScore ∧
        it.verificationScore ≤ 60) ∧
    (handleApiGateway ⟨none, none⟩ .missingKey .missingKey .missingKey
        emptyCache "t" 0).1.1 = 200 ∧
    (cascade .missingKey .missingKey .missingKey = none →
      (aggregateContent ⟨"ai", "daily", some "api"⟩ .missingKey .missingKey .missingKey
          emptyCache "t" 0).1.verificationSummary =
        "Placeholder content generated because AI providers were unavailable.") ∧
    (∀ r : ChosenResult, cascade .missingKey .missingKey .missingKey = some r →
      (aggregateContent ⟨"ai", "daily", some "api"⟩ .missingKey .missingKey .missingKey
          emptyCache "t" 0).1.verificationSummary =
        "Content verified via " ++ r.provider ++ " with confidence " ++
          toFixed0 (r.confidence * 100) ++ "%.")) :=
  ⟨rfl, c2_exhaustion_placeholder ⟨"ai", "daily", some "api"⟩ .missingKey .missingKey
    .missingKey emptyCache "t" 0 rfl rfl rfl⟩

/-- C3 (confirmed): for every successful cascade result, every item in the
canonicalized output list carries the same score, the selected provider's
confidence times 100 rounded (JS Math.round); when the chosen result has
at least one item, the response's item list is exactly that canonicalized
list. -/
theorem c3_items_share_confidence_score :
    ∀ (req : AggregationRequest) (p g c : CallOutcome) (cache : Cache)
      (now : String) (epoch : ℤ) (r : ChosenResult),
      cascade p g c = some r →
      (∀ it ∈ (r.items.take 10).map (canonicalItem req now r.confidence),
        it.verificationScore = jsRound (r.confidence * 100)) ∧
      (r.items ≠ [] →
        (aggregateContent req p g c cache now epoch).1.items =
          (r.items.take 10).map (canonicalItem req now r.confidence)) := by
  intro req p g c cache now epoch r hr
  constructor
  · intro it hit
    simp only [List.mem_map] at hit
    obtain ⟨raw, _, hraw⟩ := hit
    subst hraw
    rfl
  · intro hne
    unfold aggregateContent
    simp only [hr]
    have hlen : ((r.items.take 10).map (canonicalItem req now r.confidence)).length > 0 := by
      simp only [List.length_map, List.length_take]
      have := List.length_pos.mpr hne
      omega
    simp [hlen]
    exact fun h => absurd h hne

/-- C3 witness: Scenario B — Perplexity returns 2 items with confidence
0.9, Gemini 1 item with confidence 0.95; the chosen result is Perplexity
and every canonical item scores `jsRound (9/10 * 100)`. -/
theorem c3_items_share_confidence_score_witness :
    cascade (.ok (9/10) [sampleRaw, sampleRaw]) (.ok (19/20) [sampleRaw]) .missingKey =
      some ⟨"perplexity", 9/10, [sampleRaw, sampleRaw]⟩ ∧
    ((∀ it ∈ (([sampleRaw, sampleRaw] : List RawNewsItem).take 10).map
        (canonicalItem ⟨"ai", "daily", none⟩ "t" (9/10)),
        it.verificationScore = jsRound ((9:ℚ)/10 * 100)) ∧
      (([sampleRaw, sampleRaw] : List RawNewsItem) ≠ [] →
        (aggregateContent ⟨"ai", "daily", none⟩ (.ok (9/10) [sampleRaw, sampleRaw])
            (.ok (19/20) [sampleRaw]) .missingKey emptyCache "t" 0).1.items =
          (([sampleRaw, sampleRaw] : List RawNewsItem).take 10).map
            (canonicalItem ⟨"ai", "daily", none⟩ "t" (9/10)))) :=
  ⟨rfl, c3_items_share_confidence_score ⟨"ai", "daily", none⟩ _ _ _ emptyCache "t" 0
    ⟨"perplexity", 9/10, [sampleRaw, sampleRaw]⟩ rfl⟩

/-- C4 counterexample: the news upsert of a generation whose provider
succeeded with confidence 0.9 but zero items writes the 3 placeholder
items (scores all 50) while storing aggregate `verificationScore` 90 —
the just-written items' mean is 50, not 90, refuting "the stored
aggregate score equals the mean of the just-written items' scores". -/
theorem c4_aggregate_not_mean_cx :
    Option.map CacheRecord.verificationScore
        ((aggregateContent ⟨"ai", "daily", none⟩ (.ok (9/10) []) .missingKey .missingKey
            emptyCache "t" 0).2 (cacheKey "ai" "daily")) = some (some 90) ∧
    Option.map CacheRecord.newsArray
        ((aggregateContent ⟨"ai", "daily", none⟩ (.ok (9/10) []) .missingKey .missingKey
            emptyCache "t" 0).2 (cacheKey "ai" "daily")) =
      some (some (buildPlaceholderItems "ai" "daily" "t")) ∧
    (buildPlaceholderItems "ai" "daily" "t").map
        (fun it => it.verificationScore) = [50, 50, 50] ∧
    jsRound (((50:ℚ) + 50 + 50) / 3) = 50 ∧
    (90 : ℤ) ≠ 50 := by
  refine ⟨?_, ?_, by decide, by norm_num [jsRound], by decide⟩
  · unfold aggregateContent newsUpsert
    simp [cascade, tryCall]
    norm_num [jsRound]
  · rfl

/-- C4 (amended): a second upsert for the same key and content type fully
replaces that slot's item list (exactly `itemsB`, no remnants); the
patent write stores as aggregate the mean of the just-written patents'
impact scores rounded to the nearest integer (Math.round of
sum / max(1, length)); the news write instead stores the selected
provider's confidence times 100 rounded (0.5 when no provider succeeded),
which is not computed from the written items' scores. -/
theorem c4_upsert_replaces_and_scores :
    (∀ (cache : Cache) (key : String) (itemsA itemsB : List AiContentItem)
      (v1 v2 : String) (t1 t2 s1 s2 : ℤ) (req : PatentRequest)
      (patentsA patentsB : List PatentSummary) (pv1 pv2 : String) (pe1 pe2 : ℤ),
      Option.map CacheRecord.newsArray
          ((newsUpsert (newsUpsert cache key itemsA v1 t1 s1) key itemsB v2 t2 s2) key) =
        some (some itemsB) ∧
      Option.map CacheRecord.verificationScore
          ((newsUpsert (newsUpsert cache key itemsA v1 t1 s1) key itemsB v2 t2 s2) key) =
        some (some s2) ∧
      Option.map CacheRecord.patentsArray
          ((upsertCache (upsertCache cache req patentsA pv1 pe1) req patentsB pv2 pe2)
            (cacheKey req.sectionName req.timePeriod)) = some (some patentsB) ∧
      Option.map CacheRecord.patentImpactAverage
          ((upsertCache (upsertCache cache req patentsA pv1 pe1) req patentsB pv2 pe2)
            (cacheKey req.sectionName req.timePeriod)) =
        some (some (jsRound (((patentsB.map PatentSummary.impactScore).sum : ℚ) /
          (max 1 patentsB.length : ℕ))))) ∧
    (∀ (req : AggregationRequest) (p g c : CallOutcome) (cache : Cache)
      (now : String) (epoch : ℤ),
      Option.map CacheRecord.verificationScore
          ((aggregateContent req p g c cache now epoch).2
            (cacheKey req.sectionName req.timePeriod)) =
        some (some (jsRound ((match cascade p g c with
          | some r => r.confidence
          | none => (1 : ℚ)/2) * 100)))) := by
  constructor
  · intro cache key itemsA itemsB v1 v2 t1 t2 s1 s2 req patentsA patentsB pv1 pv2 pe1 pe2
    refine ⟨?_, ?_, ?_, ?_⟩ <;> simp [newsUpsert, upsertCache]
  · intro req p g c cache now epoch
    unfold aggregateContent newsUpsert
    simp

/-- C5 (confirmed): the deep-dive expansion behaves exactly as if the
requested depth were clamped to [1, 5] with default 3 — the handler
computes `min(depth ?? 3, 5)`, and `expandRelated` produces identical
output for any two depths at most 1, so depth 100 behaves as 5 and
depth 0 behaves as 1. -/
theorem c5_depth_clamp :
    ∀ (t : RawItem) (d : ℤ),
      deepDiveItem t (some d) = expandRelated t (max 1 (min d 5)) ∧
      deepDiveItem t none = deepDiveItem t (some 3) ∧
      deepDiveItem t (some 100) = deepDiveItem t (some 5) ∧
      deepDiveItem t (some 0) = deepDiveItem t (some 1) := by
  intro t d
  refine ⟨?_, rfl, rfl, ?_⟩
  · unfold deepDiveItem deepDiveDepth
    simp only [Option.getD_some]
    by_cases h : min d 5 ≥ 1
    · rw [max_eq_right h]
    · push_neg at h
      exact expandRelated_depth_le_one t _ _ (by omega) (by omega)
  · unfold deepDiveItem deepDiveDepth
    exact expandRelated_depth_le_one t _ _ (by norm_num) (by norm_num)

/-- C6 counterexample: an API event whose body is present but unparseable
makes `JSON.parse` throw inside the handler's try block, so the handler
returns the generic 500 failure, not a successful aggregation with
substituted defaults. -/
theorem c6_unparseable_body_fails_cx :
    handleApiGateway ⟨some (Except.error ()), none⟩ .missingKey .missingKey .missingKey
        emptyCache "t" 0 =
      ((500, Except.error "Failed to aggregate news content"), emptyCache) ∧
    (500 : ℕ) ≠ 200 :=
  ⟨rfl, by decide⟩

/-- C6 (amended): a request with an absent body, or a parseable body
missing both fields, is recovered with the documented defaults (section
"ai", timePeriod "daily") and aggregation proceeds with a 200 response;
only an unparseable (syntactically invalid JSON) body yields the generic
failure response. -/
theorem c6_defaults_recover_missing_body :
    ∀ (p g c : CallOutcome) (cache : Cache) (now : String) (epoch : ℤ),
      handleApiGateway ⟨none, none⟩ p g c cache now epoch =
        ((200, Except.ok
            (aggregateContent ⟨"ai", "daily", some "api"⟩ p g c cache now epoch).1),
          (aggregateContent ⟨"ai", "daily", some "api"⟩ p g c cache now epoch).2) ∧
      handleApiGateway ⟨some (Except.ok ⟨none, none⟩), none⟩ p g c cache now epoch =
        ((200, Except.ok
            (aggregateContent ⟨"ai", "daily", some "api"⟩ p g c cache now epoch).1),
          (aggregateContent ⟨"ai", "daily", some "api"⟩ p g c cache now epoch).2) := by
  intro p g c cache now epoch
  exact ⟨rfl, rfl⟩

/-- C7 (code bug): in the patents pipeline the ChatGPT fallback call has
no surrounding try/catch, so with Perplexity unconfigured and the ChatGPT
call failing, the provider failure escapes `generatePatentSummaries` and
the handler surfaces the generic 500 failure response — while the
placeholder degrade path (ChatGPT unconfigured) returns 200 with
placeholder patents as the claim describes. -/
theorem c7_chatgpt_patent_failure_surfaces :
    (handleApiPatents ⟨none, none⟩ .notConfigured .thrown emptyCache "t" 0).1 =
      (500, Except.error "Unable to aggregate patent insights") ∧
    generatePatentSummaries ⟨"ai", "monthly", some "api"⟩ .notConfigured .thrown =
      Except.error () ∧
    (handleApiPatents ⟨none, none⟩ .notConfigured .notConfigured emptyCache "t" 0).1 =
      (200, Except.ok ⟨"ai", "monthly",
        placeholderPatents ⟨"ai", "monthly", some "api"⟩, "t"⟩) :=
  ⟨rfl, rfl, rfl⟩

/-- C8 counterexample: the first dailyRefresh handler variant pushes to
nobody when `connections` is omitted, even though a live connection is
registered (the second variant pushes to it) — refuting "for every
refresh trigger, the notifier enumerates live connections". -/
theorem c8_v1_skips_notification_cx :
    (dailyRefreshHandlerV1 (some ⟨none, none, none⟩) true true).pushedTo = [] ∧
    (dailyRefreshHandlerV2 (some ⟨none, none, none⟩) true true true ["conn-1"]).pushedTo =
      ["conn-1"] ∧
    ([] : List String) ≠ ["conn-1"] :=
  ⟨rfl, rfl, by decide⟩

/-- C8 (amended): the dailyRefresh handler variant that scans the
websocket-sessions table does enumerate all currently registered (non-
blank) connections when `connections` is omitted and pushes to each, and
pushes exactly to the supplied list when one is given; the other variant
(lines 18-60) pushes only when an explicit `connections` array is
supplied and otherwise skips notification. -/
theorem c8_v2_enumerates_registry :
    ∀ (s t : Option (List String)) (registry : List String),
      (dailyRefreshHandlerV2 (some ⟨s, t, none⟩) true true true registry).pushedTo =
        registry.filter (fun c => c ≠ "") ∧
      (dailyRefreshHandlerV2 none true true true registry).pushedTo =
        registry.filter (fun c => c ≠ "") ∧
      (∀ cs : List String,
        (dailyRefreshHandlerV2 (some ⟨s, t, some cs⟩) true true true registry).pushedTo =
          cs) := by
  intro s t registry
  refine ⟨?_, ?_, ?_⟩
  · unfold dailyRefreshHandlerV2 listActiveConnections
    by_cases h : (registry.filter (fun c => c ≠ "")).length > 0 <;> simp_all
  · unfold dailyRefreshHandlerV2 listActiveConnections
    by_cases h : (registry.filter (fun c => c ≠ "")).length > 0 <;> simp_all
  · intro cs
    unfold dailyRefreshHandlerV2
    by_cases h : cs.length > 0 <;> simp_all

/-- C9 counterexample: the patent `normalizeRequest` with section and
timePeriod omitted defaults timePeriod to "monthly", not "daily" as the
news `parseRequest` does — refuting "the same defaults as the news
aggregation request". -/
theorem c9_monthly_not_daily_cx :
    normalizeRequestInternal ⟨none, none, none⟩ = ⟨"ai", "monthly", none⟩ ∧
    ("monthly" : String) ≠ "daily" ∧
    parseRequestInternal ⟨none, none, none⟩ = ⟨"ai", "daily", none⟩ :=
  ⟨rfl, by decide, rfl⟩

/-- C9 (amended): a patent aggregation request that omits section or
timePeriod gets section "ai" (as the news request does) but timePeriod
"monthly" — on both the API-gateway and the internal entry path — whereas
the news request defaults timePeriod to "daily". -/
theorem c9_patent_defaults :
    ∀ m : Option String,
      normalizeRequestInternal ⟨none, none, m⟩ = ⟨"ai", "monthly", m⟩ ∧
      normalizeRequestApi ⟨none, none⟩ = Except.ok ⟨"ai", "monthly", some "api"⟩ ∧
      parseRequestInternal ⟨none, none, m⟩ = ⟨"ai", "daily", m⟩ := by
  intro m
  exact ⟨rfl, rfl, rfl⟩

/-- C10 (confirmed): for every cached item tree and every depth (whether
or not a depth was requested), the expanded result has at most 3 related
children at every level of the returned tree. -/
theorem c10_related_children_bounded :
    (∀ (t : RawItem) (d : ℤ), bounded3 (expandRelated t d) = true) ∧
    (∀ (t : RawItem) (rd : Option ℤ), bounded3 (deepDiveItem t rd) = true) := by
  have key : ∀ (n : ℕ) (t : RawItem), sizeOf t < n → ∀ d : ℤ,
      bounded3 (expandRelated t d) = true := by
    intro n
    induction n with
    | zero => intro t h; exact absurd h (Nat.not_lt_zero _)
    | succ n ih =>
      intro t ht d
      obtain ⟨f, related⟩ := t
      rw [expandRelated.eq_def]
      by_cases hd : d > 1
      · simp only [hd, if_true]
        rw [bounded3.eq_def]
        simp only [Bool.and_eq_true, decide_eq_true_eq]
        constructor
        · cases related with
          | none => simp
          | some children => simpa using expandChildren_length 3 children (d - 1)
        · rw [bounded3List_eq, List.all_eq_true]
          intro x hx
          cases related with
          | none => simp at hx
          | some children =>
            simp only at hx
            obtain ⟨c, hc, hxeq⟩ := mem_expandChildren 3 children (d - 1) hx
            have hszc : sizeOf c < sizeOf children := List.sizeOf_lt_of_mem hc
            have hsz : sizeOf children < sizeOf (RawItem.mk f (some children)) := by
              simp [RawItem.mk.sizeOf_spec]; omega
            subst hxeq
            exact ih c (by omega) (d - 1)
      · simp only [hd, if_false]
        rw [bounded3.eq_def]
  constructor
  · intro t d
    exact key (sizeOf t + 1) t (Nat.lt_succ_self _) d
  · intro t rd
    exact key (sizeOf t + 1) t (Nat.lt_succ_self _) _

end TechNewsHub
